import Mathlib

/-!
Verification of the MongoDB data-access layer: the generic CRUD engine
(src/mongodb/crud.ts) and the connection lifecycle manager
(src/mongodb/connection.ts), shallowly embedded in Lean 4.

Conventions of the embedding:
* a thrown JS exception that a function lets escape is an `Except.error`;
  a function whose body is wrapped in try/catch and always returns an
  envelope is total into its result type;
* every store primitive (findOne, insertOne, updateOne, deleteOne,
  countDocuments) is an external collaborator and enters as an explicit
  response parameter; operations additionally report how many store calls
  they made, so "no store call is attempted" is provable;
* the zod validation capability is modelled from its contract stated in
  the repository: parse aggregates every field violation as a list of
  "path: message" strings.
-/

namespace Mongo

/-- An identifier value: either a driver ObjectId (kept as its canonical
hex rendering) or a plain string id, mirroring `IdType = ObjectId | string`. -/
inductive IdType where
  | oid : String → IdType
  | str : String → IdType
deriving DecidableEq

/-- Rendering used by JS template interpolation of an id. -/
def IdType.render : IdType → String
  | .oid h => h
  | .str s => s

def isHexChar (c : Char) : Bool :=
  c.isDigit || ('a' ≤ c && c ≤ 'f') || ('A' ≤ c && c ≤ 'F')

/-- Modelled from the spec: the canonical fixed-length ObjectId string
encoding accepted by the driver's `ObjectId.isValid` — 24 hexadecimal
characters (the driver itself is an external collaborator). -/
def isValidObjectId (s : String) : Bool :=
  s.length == 24 && s.toList.all isHexChar

/-- Field values inside a document: integers or identifiers (enough to
express every behavior the engine's control flow depends on). -/
inductive Value where
  | int : Int → Value
  | vid : IdType → Value
deriving DecidableEq

/-- A document is a list of field assignments. -/
abbrev Doc := List (String × Value)

def Doc.get (d : Doc) (k : String) : Option Value :=
  (d.find? (fun p => p.1 == k)).map (fun p => p.2)

/-- One field of a declared shape: its name, its check, the message zod
reports when the check fails, and whether the field is required. -/
structure FieldSpec where
  name : String
  check : Value → Bool
  msg : String
  required : Bool

/-- Issues a single field contributes under full validation, as
"path: message" strings (zod reports `Required` for a missing required
field). -/
def fieldIssues (f : FieldSpec) (d : Doc) : List String :=
  match Doc.get d f.name with
  | none => if f.required then [f.name ++ ": Required"] else []
  | some v => if f.check v then [] else [f.name ++ ": " ++ f.msg]

/-- All issues of full validation: every violation, in schema order. -/
def zodIssues (sch : List FieldSpec) (d : Doc) : List String :=
  (sch.map (fun f => fieldIssues f d)).flatten

/-- Issues a single field contributes when requiredness is relaxed
(zod's `.partial()`): absent fields are skipped. -/
def fieldIssuesRelaxed (f : FieldSpec) (d : Doc) : List String :=
  match Doc.get d f.name with
  | none => []
  | some v => if f.check v then [] else [f.name ++ ": " ++ f.msg]

/-- All issues of relaxed validation, used on an update's replacement
fields. -/
def zodRelaxedIssues (sch : List FieldSpec) (d : Doc) : List String :=
  (sch.map (fun f => fieldIssuesRelaxed f d)).flatten

/-- `CrudOptions` from crud.ts. -/
structure CrudOptions where
  useObjectId : Bool
  collectionName : String
deriving DecidableEq

/-- `MongoCRUD.validateId`: under native-id mode a string must parse
against the canonical encoding or the call throws
`Invalid ObjectId: ...`; otherwise the id passes through. -/
def validateId (opts : CrudOptions) (id : IdType) : Except String IdType :=
  if opts.useObjectId then
    match id with
    | .str s =>
        if isValidObjectId s then .ok (.oid s)
        else .error ("Invalid ObjectId: " ++ s)
    | .oid h => .ok (.oid h)
  else .ok id

/-- `MongoCRUD.validateData`: run the schema parse; on violations throw
`Validation failed: ` followed by every "path: message" joined by ", ". -/
def validateData (sch : List FieldSpec) (d : Doc) : Except String Doc :=
  match zodIssues sch d with
  | [] => .ok d
  | es => .error ("Validation failed: " ++ String.intercalate ", " es)

/-- `FindResult<T>` from crud.ts. -/
structure FindResult where
  success : Bool
  data : Option Doc
  error : Option String
deriving DecidableEq

/-- `MongoCRUD.findById`. The whole body sits in a try/catch, so the
method always resolves to an envelope: a malformed id (validateId throw)
is caught and surfaces as a Failure with zero store calls; otherwise one
findOne call is made, whose response is either a thrown transport error,
no document, or the document. Returns the envelope and the number of
store calls issued. -/
def findById (opts : CrudOptions) (id : IdType)
    (findOne : IdType → Except String (Option Doc)) : FindResult × Nat :=
  match validateId opts id with
  | .error e => ({ success := false, data := none, error := some e }, 0)
  | .ok vid =>
    match findOne vid with
    | .error e => ({ success := false, data := none, error := some e }, 1)
    | .ok none =>
        ({ success := false, data := none,
           error := some ("Document with id " ++ id.render ++ " not found") }, 1)
    | .ok (some doc) => ({ success := true, data := some doc, error := none }, 1)

/-- `FindManyOptions` from crud.ts: optional limit and skip (absent means
the JS destructuring default applies). -/
structure FindManyOptions where
  limit : Option Int
  skip : Option Int
deriving DecidableEq

/-- `FindManyResult<T>` from crud.ts. -/
structure FindManyResult where
  success : Bool
  data : List Doc
  total : Nat
  error : Option String
deriving DecidableEq

/-- Cursor skip as applied by crud.ts: only when `skip > 0`. -/
def applySkip (l : List Doc) (skip : Int) : List Doc :=
  if skip > 0 then l.drop skip.toNat else l

/-- Cursor limit as applied by crud.ts: only when `limit > 0` (zero or
negative leaves the cursor unlimited). -/
def applyLimit (l : List Doc) (limit : Int) : List Doc :=
  if limit > 0 then l.take limit.toNat else l

/-- `MongoCRUD.findMany`: destructure `limit = 100` and `skip = 0`
defaults, run the filtered scan with skip/limit, then count all documents
matching the same filter. A transport exception from either store call is
caught and yields a Failure with empty data and zero total; the collection
contents are the explicit list `docs`. -/
def findMany (docs : List Doc) (filter : Doc → Bool)
    (options : FindManyOptions) (throwErr : Option String) : FindManyResult :=
  match throwErr with
  | some e => { success := false, data := [], total := 0, error := some e }
  | none =>
    let lim := options.limit.getD 100
    let sk := options.skip.getD 0
    let hits := docs.filter filter
    { success := true
      data := applyLimit (applySkip hits sk) lim
      total := hits.length
      error := none }

/-- `CreateResult<T>` from crud.ts. -/
structure CreateResult where
  success : Bool
  data : Option Doc
  id : Option IdType
  error : Option String
deriving DecidableEq

/-- Attach the generated `_id`, as the object spread
`{...validatedData, _id: this.generateId()}` does (a later `_id` wins). -/
def Doc.setId (d : Doc) (i : IdType) : Doc :=
  d.filter (fun p => p.1 ≠ "_id") ++ [("_id", Value.vid i)]

/-- `MongoCRUD.create`: validate the input (throw caught into a Failure,
zero store calls), attach a generated id, then insertOne; the store
response is a thrown transport error or an acknowledgment flag. Returns
the envelope and the number of insert calls issued. `genId` stands for
`this.generateId()` (a fresh ObjectId or uuid, external randomness). -/
def create (sch : List FieldSpec) (genId : IdType) (d : Doc)
    (insertOne : Doc → Except String Bool) : CreateResult × Nat :=
  match validateData sch d with
  | .error e => ({ success := false, data := none, id := none, error := some e }, 0)
  | .ok vd =>
    let doc := Doc.setId vd genId
    match insertOne doc with
    | .error e => ({ success := false, data := none, id := none, error := some e }, 1)
    | .ok true => ({ success := true, data := some doc, id := some genId, error := none }, 1)
    | .ok false =>
        ({ success := false, data := none, id := none,
           error := some "Insert operation was not acknowledged" }, 1)

/-- `UpdateResult<T>` from crud.ts. -/
structure UpdateResult where
  success : Bool
  data : Option Doc
  modifiedCount : Nat
  error : Option String
deriving DecidableEq

/-- An `UpdateFilter` payload: the optional `$set` section (the only part
the engine inspects) plus the remaining operator sections, carried
opaquely. -/
structure UpdatePayload where
  set : Option Doc
  rest : List (String × Doc)
deriving DecidableEq

/-- Execution record of one `updateById` call: the returned envelope, how
many store calls were issued (updateOne plus the re-fetch findOne), the
payload handed to updateOne (if it was reached), and whether the
`schema.partial().parse` validation ran. -/
structure UpdateTrace where
  result : UpdateResult
  storeCalls : Nat
  sentPayload : Option UpdatePayload
  validationRan : Bool
deriving DecidableEq

/-- `MongoCRUD.updateById`: validate the id (throw caught into a Failure,
zero store calls); if the payload carries `$set`, run the relaxed parse on
it (throw `Update validation failed: ...` caught likewise); then updateOne
with the full payload — response: thrown transport error or
(acknowledged, modifiedCount) — and, when acknowledged, re-fetch the
document to return the post-update state. -/
def updateById (sch : List FieldSpec) (opts : CrudOptions) (id : IdType)
    (update : UpdatePayload)
    (updateOne : IdType → UpdatePayload → Except String (Bool × Nat))
    (findOne : IdType → Except String (Option Doc)) : UpdateTrace :=
  match validateId opts id with
  | .error e =>
      ⟨{ success := false, data := none, modifiedCount := 0, error := some e },
       0, none, false⟩
  | .ok vid =>
    let valRes : Except String Unit :=
      match update.set with
      | none => .ok ()
      | some s =>
        match zodRelaxedIssues sch s with
        | [] => .ok ()
        | es => .error ("Update validation failed: " ++ String.intercalate ", " es)
    match valRes with
    | .error e =>
        ⟨{ success := false, data := none, modifiedCount := 0, error := some e },
         0, none, update.set.isSome⟩
    | .ok () =>
      match updateOne vid update with
      | .error e =>
          ⟨{ success := false, data := none, modifiedCount := 0, error := some e },
           1, some update, update.set.isSome⟩
      | .ok (false, _) =>
          ⟨{ success := false, data := none, modifiedCount := 0,
             error := some "Update operation was not acknowledged" },
           1, some update, update.set.isSome⟩
      | .ok (true, mc) =>
        match findOne vid with
        | .error e =>
            ⟨{ success := false, data := none, modifiedCount := 0, error := some e },
             2, some update, update.set.isSome⟩
        | .ok od =>
            ⟨{ success := true, data := od, modifiedCount := mc, error := none },
             2, some update, update.set.isSome⟩

/-- `DeleteResult` from crud.ts. -/
structure DeleteResult where
  success : Bool
  deletedCount : Nat
  error : Option String
deriving DecidableEq

/-- `MongoCRUD.deleteById`: validate the id, then deleteOne; the response
is a thrown transport error or (acknowledged, deletedCount). Returns the
envelope and the number of store calls issued. -/
def deleteById (opts : CrudOptions) (id : IdType)
    (deleteOne : IdType → Except String (Bool × Nat)) : DeleteResult × Nat :=
  match validateId opts id with
  | .error e => ({ success := false, deletedCount := 0, error := some e }, 0)
  | .ok vid =>
    match deleteOne vid with
    | .error e => ({ success := false, deletedCount := 0, error := some e }, 1)
    | .ok (false, _) =>
        ({ success := false, deletedCount := 0,
           error := some "Delete operation was not acknowledged" }, 1)
    | .ok (true, dc) => ({ success := true, deletedCount := dc, error := none }, 1)

/-- `MongoCRUD.deleteMany`: a single deleteMany store call with the same
acknowledgment contract as deleteById. -/
def deleteMany (resp : Except String (Bool × Nat)) : DeleteResult :=
  match resp with
  | .error e => { success := false, deletedCount := 0, error := some e }
  | .ok (false, _) =>
      { success := false, deletedCount := 0,
        error := some "Delete operation was not acknowledged" }
  | .ok (true, dc) => { success := true, deletedCount := dc, error := none }

/-- The three termination signals connection.ts registers handlers for. -/
inductive Signal where
  | sigint : Signal
  | sigterm : Signal
  | sigquit : Signal
deriving DecidableEq

/-- State of one `MongoConnectionManager` together with the process-level
shutdown-handler registry it appends to. Client and db handles are
identified by the number of the connection attempt that created them. -/
structure MgrState where
  client : Option Nat
  db : Option Nat
  isConnected : Bool
  handlers : List Signal
deriving DecidableEq

def initMgr : MgrState :=
  { client := none, db := none, isConnected := false, handlers := [] }

/-- A `connect()` call (no overlapping caller) whose underlying attempt,
if one is issued, succeeds and yields fresh handle `h`: already-connected
managers return the existing handle untouched; otherwise the client and
db are set and `setupShutdownHandlers()` registers the shutdown closure
for SIGINT, SIGTERM and SIGQUIT — on every such success, with no guard. -/
def connectOk (h : Nat) (st : MgrState) : MgrState :=
  if st.isConnected && st.db.isSome then st
  else
    { client := some h, db := some h, isConnected := true,
      handlers := st.handlers ++ [Signal.sigint, Signal.sigterm, Signal.sigquit] }

/-- `disconnect()` when `client.close()` succeeds: clears the handle; a
no-op on an already-disconnected manager. Process-level signal handlers
are not deregistered. -/
def disconnect (st : MgrState) : MgrState :=
  match st.client with
  | none => st
  | some _ =>
      { client := none, db := none, isConnected := false, handlers := st.handlers }

/-- `getDb()`: throws unless a db handle exists and the manager is
connected. -/
def getDb (st : MgrState) : Except String Nat :=
  match st.db with
  | none => .error "MongoDB connection not established. Call connect() first."
  | some d =>
      if st.isConnected then .ok d
      else .error "MongoDB connection not established. Call connect() first."

/-- How many registered handlers the registry holds for a signal; on
receipt of that signal the process invokes the shutdown closure once per
registration. -/
def countSig (s : Signal) : List Signal → Nat
  | [] => 0
  | x :: xs => (if x = s then 1 else 0) + countSig s xs

/-- One run of the shutdown closure: `disconnect()` then exit 0, or exit 1
when `client.close()` throws (`closeFails`). Returns the manager state it
leaves behind and the process exit code. -/
def shutdownRun (st : MgrState) (closeFails : Bool) : MgrState × Nat :=
  match st.client with
  | none => (st, 0)
  | some _ =>
      if closeFails then (st, 1)
      else ({ client := none, db := none, isConnected := false,
              handlers := st.handlers }, 0)

/-- The manager after `k` successful connect/disconnect/connect cycles:
`cycles k` has gone through `k` successful `connect()` calls, the last one
left connected. -/
def cycles : Nat → MgrState
  | 0 => initMgr
  | k + 1 => connectOk (k + 1) (disconnect (cycles k))

/-- The `MongoCRUD` instance state: the collection reference captured in
the constructor — the pair of the db handle the manager held at
construction time and the collection name — plus the schema and options.
The manager reference itself is stored by the constructor but never read
again by any operation. -/
structure MongoCRUD where
  collection : Nat × String
  schema : List FieldSpec
  options : CrudOptions

/-- The `MongoCRUD` constructor: reads the manager's db once via
`getDb()` (so it throws when the manager is not connected) and caches
`db.collection(options.collectionName)`. -/
def MongoCRUD.construct (st : MgrState) (sch : List FieldSpec)
    (opts : CrudOptions) : Except String MongoCRUD :=
  (getDb st).map (fun d => ⟨(d, opts.collectionName), sch, opts⟩)

/-- `findById` as invoked on an engine instance: the findOne store call is
served by `stores` — the contents of every collection of every db handle —
at the collection the constructor cached. The live manager state at call
time (`currentMgr`) is what the engine could have consulted instead; the
source never touches it, and the definition records that by ignoring it. -/
def MongoCRUD.findByIdOp (c : MongoCRUD) (_currentMgr : MgrState)
    (stores : Nat → String → IdType → Option Doc) (id : IdType) :
    FindResult × Nat :=
  findById c.options id
    (fun vid => Except.ok (stores c.collection.1 c.collection.2 vid))

/-- The resolved `MongoConnectionConfig` a manager is constructed with. -/
structure MongoConnectionConfig where
  uri : String
  dbName : String
  maxPoolSize : Nat
  serverSelectionTimeoutMS : Nat
  socketTimeoutMS : Nat
deriving DecidableEq

/-- The optional `Partial<MongoConnectionConfig>` constructor argument. -/
structure PartialConfig where
  uri : Option String
  dbName : Option String
  maxPoolSize : Option Nat
  serverSelectionTimeoutMS : Option Nat
  socketTimeoutMS : Option Nat
deriving DecidableEq

/-- JS `a || b` on an optional string: an absent OR empty string falls
through to the default. -/
def jsOrStr : Option String → String → String
  | some s, b => if s = "" then b else s
  | none, b => b

/-- The `MongoConnectionManager` constructor's config resolution:
`config?.uri || process.env.MONGODB_URI || "mongodb://localhost:27017"`,
likewise for the db name, and option spread over the defaults
`maxPoolSize 10, serverSelectionTimeoutMS 5000, socketTimeoutMS 45000`. -/
def resolveConfig (cfg : Option PartialConfig) (envUri envDb : Option String) :
    MongoConnectionConfig :=
  { uri := jsOrStr (cfg.bind (fun c => c.uri)) (jsOrStr envUri "mongodb://localhost:27017")
    dbName := jsOrStr (cfg.bind (fun c => c.dbName)) (jsOrStr envDb "test")
    maxPoolSize := (cfg.bind (fun c => c.maxPoolSize)).getD 10
    serverSelectionTimeoutMS :=
      (cfg.bind (fun c => c.serverSelectionTimeoutMS)).getD 5000
    socketTimeoutMS := (cfg.bind (fun c => c.socketTimeoutMS)).getD 45000 }

/-- Result of one `getConnectionManager` call: the manager handed back
(identified by its resolved config), the new value of the module-global
`globalConnectionManager`, and whether this call constructed a manager. -/
structure GetManagerResult where
  manager : MongoConnectionConfig
  globalAfter : Option MongoConnectionConfig
  constructed : Bool
deriving DecidableEq

/-- `getConnectionManager(config)`: constructs a new manager from
`config` only when the module global is null, otherwise returns the
stored instance and leaves the argument unused. -/
def getConnectionManager (globalMgr : Option MongoConnectionConfig)
    (cfg : Option PartialConfig) (envUri envDb : Option String) :
    GetManagerResult :=
  match globalMgr with
  | some m => { manager := m, globalAfter := some m, constructed := false }
  | none =>
    let m := resolveConfig cfg envUri envDb
    { manager := m, globalAfter := some m, constructed := true }

/-- `resetConnectionManager()`: nulls the module global. -/
def resetConnectionManager (_globalMgr : Option MongoConnectionConfig) :
    Option MongoConnectionConfig :=
  none

/-- Where one caller of `connect()` stands. `start` is before the entry
segment; `waiting` is inside the `while (this.isConnecting)` poll loop;
`inFlight k` is awaiting its own `client.connect()` as underlying attempt
number `k`; `done h` returned db handle `h`; `failed` had its own attempt
throw. -/
inductive CallPhase where
  | start : CallPhase
  | waiting : CallPhase
  | inFlight : Nat → CallPhase
  | done : Nat → CallPhase
  | failed : CallPhase
deriving DecidableEq

/-- Shared manager state during a burst of concurrent `connect()` calls,
plus every caller's phase. `attempts` counts underlying connection
attempts issued; the db handle produced by attempt `k` is `k` itself. -/
structure ConnSt where
  isConnected : Bool
  isConnecting : Bool
  db : Option Nat
  attempts : Nat
  callers : Nat → CallPhase

def initConn : ConnSt :=
  { isConnected := false, isConnecting := false, db := none, attempts := 0,
    callers := fun _ => CallPhase.start }

def setPh (st : ConnSt) (i : Nat) (ph : CallPhase) : Nat → CallPhase :=
  fun j => if j = i then ph else st.callers j

/-- One run-to-completion segment of caller `i` of `connect()` (JS code
between two awaits, executed atomically by the event loop):
entry — return the db when `isConnected && db`, else fall into the poll
loop when another attempt is `isConnecting`, else set `isConnecting`,
make the client and issue the attempt;
poll — keep sleeping while `isConnecting`; once it clears, return
`this.db` when set, else issue an own attempt (the code does not recheck
before setting `isConnecting` again, there is no await in between);
attempt resolution — on success set db/isConnected, clear `isConnecting`
and return the handle; on failure clear `isConnecting` and throw.
`outcome k` says whether underlying attempt `k` succeeds. -/
def stepCaller (outcome : Nat → Bool) (st : ConnSt) (i : Nat) : ConnSt :=
  match st.callers i with
  | .done _ => st
  | .failed => st
  | .start =>
    match st.isConnected, st.db with
    | true, some h => { st with callers := setPh st i (.done h) }
    | _, _ =>
      if st.isConnecting then { st with callers := setPh st i .waiting }
      else
        { st with isConnecting := true, attempts := st.attempts + 1,
                  callers := setPh st i (.inFlight (st.attempts + 1)) }
  | .waiting =>
    if st.isConnecting then st
    else
      match st.db with
      | some h => { st with callers := setPh st i (.done h) }
      | none =>
          { st with isConnecting := true, attempts := st.attempts + 1,
                    callers := setPh st i (.inFlight (st.attempts + 1)) }
  | .inFlight k =>
    if outcome k then
      { st with isConnected := true, isConnecting := false, db := some k,
                callers := setPh st i (.done k) }
    else { st with isConnecting := false, callers := setPh st i .failed }

/-- Run a burst under a schedule: at each step the scheduler picks which
caller executes its next atomic segment. -/
def runConn (outcome : Nat → Bool) (sched : List Nat) (st : ConnSt) : ConnSt :=
  sched.foldl (stepCaller outcome) st

def waitOrStart (ph : CallPhase) : Prop :=
  ph = CallPhase.start ∨ ph = CallPhase.waiting

/-- Burst invariant, phase A: nobody has issued an attempt yet. -/
def InvA (st : ConnSt) : Prop :=
  st.attempts = 0 ∧ st.db = none ∧ st.isConnecting = false ∧
  st.isConnected = false ∧ ∀ i, st.callers i = CallPhase.start

/-- Burst invariant, phase B: the single attempt is in flight. -/
def InvB (st : ConnSt) : Prop :=
  st.attempts = 1 ∧ st.db = none ∧ st.isConnecting = true ∧
  st.isConnected = false ∧
  ∃ j, st.callers j = CallPhase.inFlight 1 ∧
    ∀ i, i ≠ j → waitOrStart (st.callers i)

/-- Burst invariant, phase C: the single attempt has succeeded. -/
def InvC (st : ConnSt) : Prop :=
  st.attempts = 1 ∧ st.db = some 1 ∧ st.isConnecting = false ∧
  st.isConnected = true ∧
  ∀ i, waitOrStart (st.callers i) ∨ st.callers i = CallPhase.done 1

def ConnInv (st : ConnSt) : Prop := InvA st ∨ InvB st ∨ InvC st

lemma connInv_step (outcome : Nat → Bool) (h1 : outcome 1 = true)
    (st : ConnSt) (hinv : ConnInv st) (i : Nat) :
    ConnInv (stepCaller outcome st i) := by
  rcases hinv with hA | hB | hC
  · obtain ⟨ha, hdb, hcg, hcd, hph⟩ := hA
    have hi := hph i
    have hstep : stepCaller outcome st i =
        { st with isConnecting := true, attempts := st.attempts + 1,
                  callers := setPh st i (CallPhase.inFlight (st.attempts + 1)) } := by
      simp [stepCaller, hi, hcd, hdb, hcg]
    rw [hstep]
    right; left
    refine ⟨by simp [ha], hdb, rfl, hcd, i, ?_, ?_⟩
    · simp [setPh, ha]
    · intro i' hne
      simp only [setPh, if_neg hne]
      exact Or.inl (hph i')
  · obtain ⟨ha, hdb, hcg, hcd, j, hj, hother⟩ := hB
    cases hi : st.callers i with
    | start =>
      have hij : i ≠ j := by
        intro he; rw [he, hj] at hi; exact CallPhase.noConfusion hi
      have hstep : stepCaller outcome st i =
          { st with callers := setPh st i CallPhase.waiting } := by
        simp [stepCaller, hi, hcd, hdb, hcg]
      rw [hstep]
      right; left
      refine ⟨ha, hdb, hcg, hcd, j, ?_, ?_⟩
      · simp only [setPh, if_neg (Ne.symm hij)]; exact hj
      · intro i' hne
        by_cases he : i' = i
        · subst he; simp [setPh, waitOrStart]
        · simp only [setPh, if_neg he]; exact hother i' hne
    | waiting =>
      have hstep : stepCaller outcome st i = st := by
        simp [stepCaller, hi, hcg]
      rw [hstep]
      exact Or.inr (Or.inl ⟨ha, hdb, hcg, hcd, j, hj, hother⟩)
    | inFlight k =>
      have hij : i = j := by
        by_contra he
        rcases hother i he with hw | hw <;> rw [hi] at hw <;>
          exact CallPhase.noConfusion hw
      have hk : k = 1 := by
        rw [hij, hj] at hi
        exact ((CallPhase.inFlight.injEq 1 k).mp hi).symm
      subst hk
      have hstep : stepCaller outcome st i =
          { st with isConnected := true, isConnecting := false, db := some 1,
                    callers := setPh st i (CallPhase.done 1) } := by
        simp [stepCaller, hi, h1]
      rw [hstep]
      right; right
      refine ⟨ha, rfl, rfl, rfl, ?_⟩
      intro i'
      by_cases he : i' = i
      · subst he; simp [setPh]
      · simp only [setPh, if_neg he]
        exact Or.inl (hother i' (by rw [hij] at he; exact he))
    | done h =>
      have hstep : stepCaller outcome st i = st := by simp [stepCaller, hi]
      rw [hstep]
      exact Or.inr (Or.inl ⟨ha, hdb, hcg, hcd, j, hj, hother⟩)
    | failed =>
      have hstep : stepCaller outcome st i = st := by simp [stepCaller, hi]
      rw [hstep]
      exact Or.inr (Or.inl ⟨ha, hdb, hcg, hcd, j, hj, hother⟩)
  · obtain ⟨ha, hdb, hcg, hcd, hph⟩ := hC
    cases hi : st.callers i with
    | start =>
      have hstep : stepCaller outcome st i =
          { st with callers := setPh st i (CallPhase.done 1) } := by
        simp [stepCaller, hi, hcd, hdb]
      rw [hstep]
      right; right
      refine ⟨ha, hdb, hcg, hcd, ?_⟩
      intro i'
      by_cases he : i' = i
      · subst he; simp [setPh]
      · simp only [setPh, if_neg he]; exact hph i'
    | waiting =>
      have hstep : stepCaller outcome st i =
          { st with callers := setPh st i (CallPhase.done 1) } := by
        simp [stepCaller, hi, hcg, hdb]
      rw [hstep]
      right; right
      refine ⟨ha, hdb, hcg, hcd, ?_⟩
      intro i'
      by_cases he : i' = i
      · subst he; simp [setPh]
      · simp only [setPh, if_neg he]; exact hph i'
    | inFlight k =>
      exfalso
      rcases hph i with hw | hw <;> rw [hi] at hw
      · rcases hw with hw | hw <;> exact CallPhase.noConfusion hw
      · exact CallPhase.noConfusion hw
    | done h =>
      have hstep : stepCaller outcome st i = st := by simp [stepCaller, hi]
      rw [hstep]
      exact Or.inr (Or.inr ⟨ha, hdb, hcg, hcd, hph⟩)
    | failed =>
      have hstep : stepCaller outcome st i = st := by simp [stepCaller, hi]
      rw [hstep]
      exact Or.inr (Or.inr ⟨ha, hdb, hcg, hcd, hph⟩)

lemma connInv_run (outcome : Nat → Bool) (h1 : outcome 1 = true)
    (sched : List Nat) :
    ∀ st : ConnSt, ConnInv st → ConnInv (runConn outcome sched st) := by
  induction sched with
  | nil => intro st h; exact h
  | cons a tl ih =>
    intro st h
    exact ih (stepCaller outcome st a) (connInv_step outcome h1 st h a)

lemma connInv_init : ConnInv initConn :=
  Or.inl ⟨rfl, rfl, rfl, rfl, fun _ => rfl⟩

/-! Concrete fixtures used by counterexamples and witnesses. -/

def exOpts : CrudOptions := ⟨false, "users"⟩

def exSt1 : MgrState := connectOk 1 initMgr

def exSt2 : MgrState := connectOk 2 (disconnect exSt1)

def exDoc : Doc := [("x", Value.int 1)]

/-- Store contents per (db handle, collection, id): only the collection of
db handle 2 — the one the manager holds after reconnecting — contains the
record with id "a". -/
def exStores : Nat → String → IdType → Option Doc :=
  fun d _ i => if d = 2 ∧ i = IdType.str "a" then some exDoc else none

def exCrud : MongoCRUD := ⟨(1, "users"), [], exOpts⟩

/-- A schema with two required fields, both absent from the empty
document, so full validation reports two violations. -/
def exSch : List FieldSpec :=
  [⟨"a", fun _ => true, "bad", true⟩, ⟨"b", fun _ => true, "bad", true⟩]

def exDocs3 : List Doc :=
  [[("x", Value.int 1)], [("x", Value.int 2)], [("x", Value.int 3)]]

/-- A schema whose single field rejects every value, so any `$set`
carrying field "a" fails relaxed validation. -/
def exBadSch : List FieldSpec := [⟨"a", fun _ => false, "bad", true⟩]

/-! Helper lemmas. -/

lemma countSig_append (s : Signal) (l l' : List Signal) :
    countSig s (l ++ l') = countSig s l + countSig s l' := by
  induction l with
  | nil => simp [countSig]
  | cons x xs ih => simp [countSig, ih, Nat.add_assoc]

lemma cycles_count (k : Nat) :
    countSig Signal.sigint (cycles k).handlers = k ∧
    (disconnect (cycles k)).isConnected = false ∧
    (disconnect (cycles k)).handlers = (cycles k).handlers := by
  induction k with
  | zero => exact ⟨rfl, rfl, rfl⟩
  | succ k ih =>
    obtain ⟨hc, hic, hh⟩ := ih
    have hck : cycles (k + 1) =
        { client := some (k + 1), db := some (k + 1), isConnected := true,
          handlers := (cycles k).handlers ++
            [Signal.sigint, Signal.sigterm, Signal.sigquit] } := by
      show connectOk (k + 1) (disconnect (cycles k)) = _
      simp [connectOk, hic, hh]
    refine ⟨?_, ?_, ?_⟩
    · rw [hck]
      simp [countSig_append, hc, countSig]
    · rw [hck]; rfl
    · rw [hck]; rfl

lemma mem_zodIssues_of_mem_fieldIssues (sch : List FieldSpec) (f : FieldSpec)
    (d : Doc) (hf : f ∈ sch) (e : String) (he : e ∈ fieldIssues f d) :
    e ∈ zodIssues sch d := by
  simp only [zodIssues, List.mem_flatten]
  exact ⟨fieldIssues f d, List.mem_map_of_mem _ hf, he⟩

/-! Claim theorems. -/

/-- C1, counterexample. The claim says that in native-id mode `findById`
and `updateById` throw on a malformed id string rather than returning a
result envelope. At the concrete malformed input "xyz" both operations do
return an envelope — a Failure carrying the `Invalid ObjectId` message —
because the source wraps the `validateId` throw in the operation's
try/catch; its own tests assert `result.success === false` for this very
input shape. No store call is made. -/
theorem findById_malformed_id_returns_envelope :
    (findById ⟨true, "users"⟩ (IdType.str "xyz") (fun _ => Except.ok none)).1
      = { success := false, data := none, error := some "Invalid ObjectId: xyz" }
    ∧ (findById ⟨true, "users"⟩ (IdType.str "xyz") (fun _ => Except.ok none)).2 = 0
    ∧ (updateById [] ⟨true, "users"⟩ (IdType.str "xyz") ⟨none, []⟩
        (fun _ _ => Except.ok (true, 1)) (fun _ => Except.ok none)).result
      = { success := false, data := none, modifiedCount := 0,
          error := some "Invalid ObjectId: xyz" }
    ∧ (updateById [] ⟨true, "users"⟩ (IdType.str "xyz") ⟨none, []⟩
        (fun _ _ => Except.ok (true, 1)) (fun _ => Except.ok none)).storeCalls
      = 0 := by
  refine ⟨?_, ?_, ?_, ?_⟩ <;> decide

/-- C1, amended. For every malformed native-id string, `findById` and
`updateById` in native-id mode return (rather than throw) a Failure
envelope carrying the `Invalid ObjectId` message, and no store call is
attempted. -/
theorem malformed_native_id_envelope_no_store_call
    (name s : String) (hs : isValidObjectId s = false)
    (sch : List FieldSpec) (fo : IdType → Except String (Option Doc))
    (u : UpdatePayload)
    (uo : IdType → UpdatePayload → Except String (Bool × Nat)) :
    findById ⟨true, name⟩ (IdType.str s) fo
      = ({ success := false, data := none,
           error := some ("Invalid ObjectId: " ++ s) }, 0)
    ∧ updateById sch ⟨true, name⟩ (IdType.str s) u uo fo
      = ⟨{ success := false, data := none, modifiedCount := 0,
           error := some ("Invalid ObjectId: " ++ s) }, 0, none, false⟩ := by
  constructor <;> simp [findById, updateById, validateId, hs]

/-- C1, witness for the amended theorem at the malformed input "zzz". -/
theorem malformed_native_id_envelope_witness :
    isValidObjectId "zzz" = false
    ∧ findById ⟨true, "users"⟩ (IdType.str "zzz") (fun _ => Except.ok none)
      = ({ success := false, data := none,
           error := some ("Invalid ObjectId: " ++ "zzz") }, 0) :=
  ⟨by decide,
   (malformed_native_id_envelope_no_store_call "users" "zzz" (by decide) []
      (fun _ => Except.ok none) ⟨none, []⟩ (fun _ _ => Except.ok (true, 1))).1⟩

/-- C7. For every well-formed id (one `validateId` accepts) that matches
no stored record, `findById` returns — without throwing — a Failure
envelope with absent data whose message names the id and "not found",
after exactly one store call; a transport error instead surfaces as a
Failure carrying the thrown message, so the two are distinct envelopes. -/
theorem findById_absent_id_not_found_failure
    (opts : CrudOptions) (id vid : IdType)
    (hid : validateId opts id = Except.ok vid) :
    findById opts id (fun _ => Except.ok none)
      = ({ success := false, data := none,
           error := some ("Document with id " ++ id.render ++ " not found") }, 1)
    ∧ ∀ m : String, findById opts id (fun _ => Except.error m)
        = ({ success := false, data := none, error := some m }, 1) := by
  constructor
  · simp [findById, hid]
  · intro m; simp [findById, hid]

/-- C7, witness at the string id "a" under external-id mode against an
empty collection. -/
theorem findById_absent_id_not_found_witness :
    validateId exOpts (IdType.str "a") = Except.ok (IdType.str "a")
    ∧ findById exOpts (IdType.str "a") (fun _ => Except.ok none)
      = ({ success := false, data := none,
           error := some ("Document with id " ++ (IdType.str "a").render
             ++ " not found") }, 1) :=
  ⟨rfl,
   (findById_absent_id_not_found_failure exOpts (IdType.str "a")
      (IdType.str "a") rfl).1⟩

/-- C6. `findMany` paging: the reported total is always the match count
of the filter, independent of skip and limit; an absent limit behaves as
limit 100 and an absent skip as skip 0; a non-positive limit disables
truncation; a transport error yields a Failure with empty data and zero
total; and on 3 matching records, limit 2 with skip 1 returns exactly 2
records while total reports 3. -/
theorem findMany_defaults_paging_and_total :
    (∀ docs f opts, (findMany docs f opts none).total = (docs.filter f).length)
    ∧ (∀ docs f sk,
        findMany docs f ⟨none, sk⟩ none = findMany docs f ⟨some 100, sk⟩ none)
    ∧ (∀ docs f li,
        findMany docs f ⟨li, none⟩ none = findMany docs f ⟨li, some 0⟩ none)
    ∧ (∀ docs f sk (l : Int), l ≤ 0 →
        (findMany docs f ⟨some l, some sk⟩ none).data
          = applySkip (docs.filter f) sk)
    ∧ (∀ docs f opts e, findMany docs f opts (some e)
        = { success := false, data := [], total := 0, error := some e })
    ∧ (findMany exDocs3 (fun _ => true) ⟨some 2, some 1⟩ none).data.length = 2
    ∧ (findMany exDocs3 (fun _ => true) ⟨some 2, some 1⟩ none).total = 3 := by
  refine ⟨fun docs f opts => rfl, fun docs f sk => rfl, fun docs f li => rfl,
    ?_, fun docs f opts e => rfl, ?_, ?_⟩
  · intro docs f sk l hl
    simp [findMany, applyLimit, if_neg (by omega : ¬ l > 0)]
  · decide
  · decide

/-- C6, witness: the fourth conjunct applied at limit 0 and skip 1 on the
3-record fixture (limit 0 disables the limit). -/
theorem findMany_limit_zero_witness :
    (0 : Int) ≤ 0
    ∧ (findMany exDocs3 (fun _ => true) ⟨some 0, some 1⟩ none).data
      = applySkip (exDocs3.filter (fun _ => true)) 1 :=
  ⟨by decide,
   findMany_defaults_paging_and_total.2.2.2.1 exDocs3 (fun _ => true) 1 0
     (by decide)⟩

/-- C9. `updateById` validates only the `$set` section: on a payload with
no `$set` (operator-only or empty payloads) no validation of any kind is
performed — the partial parse never runs, the outcome is identical under
any two schemas — and, once the id passes, the payload is handed to the
store unchanged. -/
theorem updateById_validates_only_set_section
    (sch sch' : List FieldSpec) (opts : CrudOptions) (id : IdType)
    (u : UpdatePayload) (hu : u.set = none)
    (uo : IdType → UpdatePayload → Except String (Bool × Nat))
    (fo : IdType → Except String (Option Doc)) :
    updateById sch opts id u uo fo = updateById sch' opts id u uo fo
    ∧ (updateById sch opts id u uo fo).validationRan = false
    ∧ (∀ vid, validateId opts id = Except.ok vid →
        (updateById sch opts id u uo fo).sentPayload = some u) := by
  refine ⟨?_, ?_, ?_⟩
  · cases hv : validateId opts id with
    | error e => simp [updateById, hv]
    | ok vid => simp [updateById, hv, hu]
  · cases hv : validateId opts id with
    | error e => simp [updateById, hv]
    | ok vid =>
      simp only [updateById, hv, hu]
      cases huo : uo vid u with
      | error e => simp [hu]
      | ok p =>
        rcases p with ⟨ack, mc⟩
        cases ack
        · simp [hu]
        · cases hfo : fo vid <;> simp [hu]
  · intro vid hv
    simp only [updateById, hv, hu]
    cases huo : uo vid u with
    | error e => simp
    | ok p =>
      rcases p with ⟨ack, mc⟩
      cases ack
      · simp
      · cases hfo : fo vid <;> simp

/-- C9, witness: an operator-only payload (`$set` absent) at a concrete
schema pair, id and store responses. -/
theorem updateById_only_set_witness :
    (UpdatePayload.mk none [("$inc", [("x", Value.int 1)])]).set = none
    ∧ (updateById exSch exOpts (IdType.str "a")
        ⟨none, [("$inc", [("x", Value.int 1)])]⟩
        (fun _ _ => Except.ok (true, 1)) (fun _ => Except.ok none)).validationRan
      = false :=
  ⟨rfl,
   (updateById_validates_only_set_section exSch [] exOpts (IdType.str "a")
      ⟨none, [("$inc", [("x", Value.int 1)])]⟩ rfl
      (fun _ _ => Except.ok (true, 1)) (fun _ => Except.ok none)).2.1⟩

/-- C10. `getConnectionManager` constructs a manager from its config only
when the module global is empty; any later call returns the stored
manager, constructs nothing and ignores its config argument — whatever
that argument is — until `resetConnectionManager` clears the global,
after which the next call constructs from its own config again. -/
theorem getConnectionManager_singleton_behavior :
    (∀ cfg eu ed, getConnectionManager none cfg eu ed
      = ⟨resolveConfig cfg eu ed, some (resolveConfig cfg eu ed), true⟩)
    ∧ (∀ m cfg2 eu ed, getConnectionManager (some m) cfg2 eu ed
      = ⟨m, some m, false⟩)
    ∧ (∀ cfg1 cfg2 eu ed,
        (getConnectionManager
          (getConnectionManager none cfg1 eu ed).globalAfter cfg2 eu ed).manager
        = resolveConfig cfg1 eu ed)
    ∧ (∀ g cfg2 eu ed,
        getConnectionManager (resetConnectionManager g) cfg2 eu ed
        = ⟨resolveConfig cfg2 eu ed, some (resolveConfig cfg2 eu ed), true⟩) :=
  ⟨fun _ _ _ => rfl, fun _ _ _ _ => rfl, fun _ _ _ _ => rfl, fun _ _ _ _ => rfl⟩

/-- C2, counterexample. The claim says every engine operation reads the
manager's current handle at call time. Concretely: an engine constructed
while the manager held db handle 1 keeps using handle 1 after the manager
disconnects and reconnects to handle 2 — `findById` misses a record that
the current handle's collection does contain. -/
theorem crud_operation_ignores_current_handle :
    MongoCRUD.construct exSt1 [] exOpts = Except.ok exCrud
    ∧ getDb exSt2 = Except.ok 2
    ∧ exStores 2 "users" (IdType.str "a") = some exDoc
    ∧ (MongoCRUD.findByIdOp exCrud exSt2 exStores (IdType.str "a")).1.success
      = false
    ∧ (MongoCRUD.findByIdOp exCrud exSt2 exStores (IdType.str "a")).1.error
      = some "Document with id a not found" :=
  ⟨rfl, rfl, rfl, rfl, rfl⟩

/-- C2, amended. The engine reads the manager's handle exactly once, in
its constructor — which propagates the manager's not-connected throw —
and caches the pair (db handle, collection name); every later operation
uses that cached collection and is wholly independent of the manager's
state at call time. -/
theorem crud_captures_collection_at_construction :
    (∀ st sch opts (d : Nat), getDb st = Except.ok d →
        MongoCRUD.construct st sch opts
          = Except.ok ⟨(d, opts.collectionName), sch, opts⟩)
    ∧ (∀ st sch opts e, getDb st = Except.error e →
        MongoCRUD.construct st sch opts = Except.error e)
    ∧ (∀ c mgr mgr' stores id,
        MongoCRUD.findByIdOp c mgr stores id
          = MongoCRUD.findByIdOp c mgr' stores id) := by
  refine ⟨?_, ?_, fun _ _ _ _ _ => rfl⟩
  · intro st sch opts d h
    simp [MongoCRUD.construct, h, Except.map]
  · intro st sch opts e h
    simp [MongoCRUD.construct, h, Except.map]

/-- C2, witness: construction against the connected manager `exSt1`
captures its handle 1; construction against a never-connected manager
throws. -/
theorem crud_captures_collection_witness :
    MongoCRUD.construct exSt1 [] exOpts
      = Except.ok ⟨(1, exOpts.collectionName), [], exOpts⟩
    ∧ MongoCRUD.construct initMgr [] exOpts
      = Except.error "MongoDB connection not established. Call connect() first." :=
  ⟨crud_captures_collection_at_construction.1 exSt1 [] exOpts 1 rfl,
   crud_captures_collection_at_construction.2.1 initMgr [] exOpts _ rfl⟩

/-- C3, counterexample. The claim says the shutdown path executes at most
once per process however many times `connect()` has succeeded. But
`setupShutdownHandlers` runs on every successful connect with no guard,
so after two successful connects the registry holds two SIGINT
registrations and a single SIGINT invokes the shutdown closure twice. -/
theorem second_connect_duplicates_shutdown_handlers :
    countSig Signal.sigint (cycles 2).handlers = 2
    ∧ ¬ countSig Signal.sigint (cycles 2).handlers ≤ 1 := by
  refine ⟨?_, ?_⟩ <;> decide

/-- C3, amended. Each run of the shutdown closure performs `disconnect()`
and exits with code 0, or code 1 when `client.close()` throws (a no-op
disconnect on an already-cleared manager exits 0); but the closure is
registered anew for SIGINT/SIGTERM/SIGQUIT on every successful
`connect()`, so after `k` successful connects one termination signal
invokes it `k` times — at-most-once execution holds only while at most
one `connect()` has succeeded. -/
theorem shutdown_exit_codes_and_handler_accumulation :
    (∀ st, (shutdownRun st false).2 = 0)
    ∧ (∀ st, st.client = none → (shutdownRun st true).2 = 0)
    ∧ (∀ st cl, st.client = some cl → (shutdownRun st true).2 = 1)
    ∧ (∀ st cl, st.client = some cl →
        (shutdownRun st false).1.client = none
        ∧ (shutdownRun st false).1.db = none
        ∧ (shutdownRun st false).1.isConnected = false)
    ∧ (∀ k, countSig Signal.sigint (cycles k).handlers = k) := by
  refine ⟨?_, ?_, ?_, ?_, fun k => (cycles_count k).1⟩
  · intro st
    cases h : st.client <;> simp [shutdownRun, h]
  · intro st h
    simp [shutdownRun, h]
  · intro st cl h
    simp [shutdownRun, h]
  · intro st cl h
    simp [shutdownRun, h]

/-- C3, witness: one connect gives one shutdown invocation with exit code
0 on clean close and 1 on a failing close; three connects give three
invocations. -/
theorem shutdown_exit_codes_witness :
    (shutdownRun (cycles 1) false).2 = 0
    ∧ (shutdownRun (cycles 1) true).2 = 1
    ∧ countSig Signal.sigint (cycles 1).handlers = 1
    ∧ countSig Signal.sigint (cycles 3).handlers = 3 :=
  ⟨shutdown_exit_codes_and_handler_accumulation.1 (cycles 1),
   shutdown_exit_codes_and_handler_accumulation.2.2.1 (cycles 1) 1 rfl,
   shutdown_exit_codes_and_handler_accumulation.2.2.2.2 1,
   shutdown_exit_codes_and_handler_accumulation.2.2.2.2 3⟩

/-- C5. A `create` whose input fails declared-shape validation returns a
Failure whose message is the full violation list joined by ", " — with
every failing field contributing its entry, required-but-missing fields
included — and issues no store call; an `updateById` whose `$set` section
fails the relaxed validation likewise produces a Failure and issues no
store call. -/
theorem create_and_update_validation_failure_no_store_call :
    (∀ sch gid d io, zodIssues sch d ≠ [] →
        create sch gid d io
          = ({ success := false, data := none, id := none,
               error := some ("Validation failed: "
                 ++ String.intercalate ", " (zodIssues sch d)) }, 0))
    ∧ (∀ sch f d v, f ∈ sch → Doc.get d f.name = some v → f.check v = false →
        (f.name ++ ": " ++ f.msg) ∈ zodIssues sch d)
    ∧ (∀ sch f d, f ∈ sch → Doc.get d f.name = none → f.required = true →
        (f.name ++ ": Required") ∈ zodIssues sch d)
    ∧ (∀ sch opts id u s uo fo, u.set = some s → zodRelaxedIssues sch s ≠ [] →
        (updateById sch opts id u uo fo).storeCalls = 0
        ∧ (updateById sch opts id u uo fo).result.success = false
        ∧ (updateById sch opts id u uo fo).result.error ≠ none) := by
  refine ⟨?_, ?_, ?_, ?_⟩
  · intro sch gid d io hne
    cases hz : zodIssues sch d with
    | nil => exact absurd hz hne
    | cons e es => simp [create, validateData, hz]
  · intro sch f d v hf hget hchk
    refine mem_zodIssues_of_mem_fieldIssues sch f d hf _ ?_
    simp [fieldIssues, hget, hchk]
  · intro sch f d hf hget hreq
    refine mem_zodIssues_of_mem_fieldIssues sch f d hf _ ?_
    simp [fieldIssues, hget, hreq]
  · intro sch opts id u s uo fo hset hne
    cases hv : validateId opts id with
    | error e => refine ⟨?_, ?_, ?_⟩ <;> simp [updateById, hv]
    | ok vid =>
      cases hz : zodRelaxedIssues sch s with
      | nil => exact absurd hz hne
      | cons e es => refine ⟨?_, ?_, ?_⟩ <;> simp [updateById, hv, hset, hz]

/-- C5, witness: a two-field schema against the empty document yields a
Failure whose message lists both violations, with zero insert calls; both
`Required` entries are members of the issue list; a failing `$set` makes
`updateById` fail with zero store calls. -/
theorem validation_failure_witness :
    create exSch (IdType.str "g") [] (fun _ => Except.ok true)
      = ({ success := false, data := none, id := none,
           error := some ("Validation failed: "
             ++ String.intercalate ", " (zodIssues exSch [])) }, 0)
    ∧ ("a: Required") ∈ zodIssues exSch []
    ∧ (updateById exBadSch exOpts (IdType.str "a")
        ⟨some [("a", Value.int 1)], []⟩
        (fun _ _ => Except.ok (true, 1)) (fun _ => Except.ok none)).storeCalls
      = 0 :=
  ⟨create_and_update_validation_failure_no_store_call.1 exSch (IdType.str "g")
     [] (fun _ => Except.ok true) (by decide),
   create_and_update_validation_failure_no_store_call.2.2.1 exSch
     ⟨"a", fun _ => true, "bad", true⟩ []
     (by unfold exSch; exact List.mem_cons_self _ _) rfl rfl,
   (create_and_update_validation_failure_no_store_call.2.2.2 exBadSch exOpts
     (IdType.str "a") ⟨some [("a", Value.int 1)], []⟩ [("a", Value.int 1)]
     (fun _ _ => Except.ok (true, 1)) (fun _ => Except.ok none) rfl
     (by decide)).1⟩

/-- C8, counterexample. The claim says not-found business outcomes are
Success outcomes, never Failure; but `findById` on a well-formed absent
id produces an envelope with `success = false` carrying a "not found"
error message — a Failure. -/
theorem findById_not_found_is_failure_envelope :
    (findById ⟨false, "users"⟩ (IdType.str "a")
        (fun _ => Except.ok none)).1.success = false
    ∧ (findById ⟨false, "users"⟩ (IdType.str "a")
        (fun _ => Except.ok none)).1.error
      = some "Document with id a not found" := by
  refine ⟨?_, ?_⟩ <;> decide

/-- C8, amended. Across every engine operation a Failure never carries
populated data (absent, or empty for `findMany`) and a Success never
carries an error message; a zero-matched update and a zero-deleted delete
are Success outcomes with zero counts — but a not-found `findById` is the
one business outcome reported as a Failure envelope. -/
theorem result_envelope_invariants :
    (∀ sch gid d io,
        ((create sch gid d io).1.success = false →
            (create sch gid d io).1.data = none)
        ∧ ((create sch gid d io).1.success = true →
            (create sch gid d io).1.error = none))
    ∧ (∀ opts id fo,
        ((findById opts id fo).1.success = false →
            (findById opts id fo).1.data = none)
        ∧ ((findById opts id fo).1.success = true →
            (findById opts id fo).1.error = none))
    ∧ (∀ docs f opts te,
        ((findMany docs f opts te).success = false →
            (findMany docs f opts te).data = [])
        ∧ ((findMany docs f opts te).success = true →
            (findMany docs f opts te).error = none))
    ∧ (∀ sch opts id u uo fo,
        ((updateById sch opts id u uo fo).result.success = false →
            (updateById sch opts id u uo fo).result.data = none)
        ∧ ((updateById sch opts id u uo fo).result.success = true →
            (updateById sch opts id u uo fo).result.error = none))
    ∧ (∀ opts id del,
        ((deleteById opts id del).1.success = false →
            (deleteById opts id del).1.deletedCount = 0)
        ∧ ((deleteById opts id del).1.success = true →
            (deleteById opts id del).1.error = none))
    ∧ (∀ resp,
        ((deleteMany resp).success = false → (deleteMany resp).deletedCount = 0)
        ∧ ((deleteMany resp).success = true → (deleteMany resp).error = none))
    ∧ (∀ sch opts id u vid od, u.set = none →
        validateId opts id = Except.ok vid →
        (updateById sch opts id u (fun _ _ => Except.ok (true, 0))
            (fun _ => Except.ok od)).result.success = true
        ∧ (updateById sch opts id u (fun _ _ => Except.ok (true, 0))
            (fun _ => Except.ok od)).result.modifiedCount = 0)
    ∧ (∀ opts id vid, validateId opts id = Except.ok vid →
        deleteById opts id (fun _ => Except.ok (true, 0))
          = ({ success := true, deletedCount := 0, error := none }, 1))
    ∧ (∀ opts id vid, validateId opts id = Except.ok vid →
        (findById opts id (fun _ => Except.ok none)).1.success = false) := by
  refine ⟨?_, ?_, ?_, ?_, ?_, ?_, ?_, ?_, ?_⟩
  · intro sch gid d io
    cases hv : validateData sch d with
    | error e => constructor <;> simp [create, hv]
    | ok vd =>
      cases hio : io (Doc.setId vd gid) with
      | error e => constructor <;> simp [create, hv, hio]
      | ok b => cases b <;> (constructor <;> simp [create, hv, hio])
  · intro opts id fo
    cases hv : validateId opts id with
    | error e => constructor <;> simp [findById, hv]
    | ok vid =>
      cases hfo : fo vid with
      | error e => constructor <;> simp [findById, hv, hfo]
      | ok od => cases od <;> (constructor <;> simp [findById, hv, hfo])
  · intro docs f opts te
    cases te <;> (constructor <;> simp [findMany])
  · intro sch opts id u uo fo
    cases hv : validateId opts id with
    | error e => constructor <;> simp [updateById, hv]
    | ok vid =>
      cases hset : u.set with
      | none =>
        cases huo : uo vid u with
        | error e => constructor <;> simp [updateById, hv, hset, huo]
        | ok p =>
          rcases p with ⟨ack, mc⟩
          cases ack
          · constructor <;> simp [updateById, hv, hset, huo]
          · cases hfo : fo vid <;>
              (constructor <;> simp [updateById, hv, hset, huo, hfo])
      | some s =>
        cases hz : zodRelaxedIssues sch s with
        | cons e es => constructor <;> simp [updateById, hv, hset, hz]
        | nil =>
          cases huo : uo vid u with
          | error e => constructor <;> simp [updateById, hv, hset, hz, huo]
          | ok p =>
            rcases p with ⟨ack, mc⟩
            cases ack
            · constructor <;> simp [updateById, hv, hset, hz, huo]
            · cases hfo : fo vid <;>
                (constructor <;> simp [updateById, hv, hset, hz, huo, hfo])
  · intro opts id del
    cases hv : validateId opts id with
    | error e => constructor <;> simp [deleteById, hv]
    | ok vid =>
      cases hd : del vid with
      | error e => constructor <;> simp [deleteById, hv, hd]
      | ok p =>
        rcases p with ⟨ack, dc⟩
        cases ack <;> (constructor <;> simp [deleteById, hv, hd])
  · intro resp
    cases resp with
    | error e => constructor <;> simp [deleteMany]
    | ok p =>
      rcases p with ⟨ack, dc⟩
      cases ack <;> (constructor <;> simp [deleteMany])
  · intro sch opts id u vid od hset hv
    constructor <;> simp [updateById, hv, hset]
  · intro opts id vid hv
    simp [deleteById, hv]
  · intro opts id vid hv
    simp [findById, hv]

/-- C8, witness: at concrete inputs — a zero-matched update is a Success
with modified count 0, a zero-deleted delete is a Success, and an absent
id makes `findById` a Failure. -/
theorem result_envelope_invariants_witness :
    (updateById [] exOpts (IdType.str "a") ⟨none, []⟩
        (fun _ _ => Except.ok (true, 0))
        (fun _ => Except.ok none)).result.success = true
    ∧ deleteById exOpts (IdType.str "a") (fun _ => Except.ok (true, 0))
      = ({ success := true, deletedCount := 0, error := none }, 1)
    ∧ (findById exOpts (IdType.str "a")
        (fun _ => Except.ok none)).1.success = false :=
  ⟨(result_envelope_invariants.2.2.2.2.2.2.1 [] exOpts (IdType.str "a")
      ⟨none, []⟩ (IdType.str "a") none rfl rfl).1,
   result_envelope_invariants.2.2.2.2.2.2.2.1 exOpts (IdType.str "a")
     (IdType.str "a") rfl,
   result_envelope_invariants.2.2.2.2.2.2.2.2 exOpts (IdType.str "a")
     (IdType.str "a") rfl⟩

/-- C4, counterexample. The claim says a burst of concurrent `connect()`
calls issues exactly one underlying attempt and every other caller
observes its result, a failure included. Concretely, with two callers and
a failing backend: caller 0 issues attempt 1 and fails; caller 1, polling
`isConnecting`, sees the flag clear with `db` still null and issues its
own attempt 2 — two underlying attempts, and the waiter never observes
the propagated failure. -/
theorem failed_connect_attempt_not_propagated_to_waiter :
    (runConn (fun _ => false) [0, 1, 0, 1] initConn).attempts = 2
    ∧ (runConn (fun _ => false) [0, 1, 0, 1] initConn).callers 0
      = CallPhase.failed
    ∧ (runConn (fun _ => false) [0, 1, 0, 1] initConn).callers 1
      = CallPhase.inFlight 2 := by
  refine ⟨?_, ?_, ?_⟩ <;> decide

/-- C4, amended. When the in-flight attempt succeeds the claimed
de-duplication holds: under every interleaving of any number of
concurrent `connect()` callers, at most one underlying attempt is issued,
every caller that completes returns that attempt's handle, and no caller
observes a failure. When the attempt fails, however, each waiter starts
its own fresh attempt instead of observing the propagated failure. -/
theorem connect_concurrent_dedup_on_success (outcome : Nat → Bool)
    (h1 : outcome 1 = true) (sched : List Nat) :
    (runConn outcome sched initConn).attempts ≤ 1
    ∧ (∀ i h, (runConn outcome sched initConn).callers i = CallPhase.done h →
        h = 1)
    ∧ (∀ i, (runConn outcome sched initConn).callers i ≠ CallPhase.failed) := by
  have hinv := connInv_run outcome h1 sched initConn connInv_init
  rcases hinv with hA | hB | hC
  · obtain ⟨ha, _, _, _, hph⟩ := hA
    refine ⟨by omega, ?_, ?_⟩
    · intro i h hd
      rw [hph i] at hd
      exact absurd hd (by simp)
    · intro i hf
      rw [hph i] at hf
      exact CallPhase.noConfusion hf
  · obtain ⟨ha, _, _, _, j, hj, hother⟩ := hB
    refine ⟨by omega, ?_, ?_⟩
    · intro i h hd
      by_cases he : i = j
      · rw [he, hj] at hd; exact CallPhase.noConfusion hd
      · rcases hother i he with hw | hw <;> rw [hd] at hw <;>
          exact CallPhase.noConfusion hw
    · intro i hf
      by_cases he : i = j
      · rw [he, hj] at hf; exact CallPhase.noConfusion hf
      · rcases hother i he with hw | hw <;> rw [hf] at hw <;>
          exact CallPhase.noConfusion hw
  · obtain ⟨ha, _, _, _, hph⟩ := hC
    refine ⟨by omega, ?_, ?_⟩
    · intro i h hd
      rcases hph i with hw | hw
      · rcases hw with hw | hw <;> rw [hd] at hw <;>
          exact CallPhase.noConfusion hw
      · rw [hd] at hw
        exact ((CallPhase.done.injEq h 1).mp hw)
    · intro i hf
      rcases hph i with hw | hw
      · rcases hw with hw | hw <;> rw [hf] at hw <;>
          exact CallPhase.noConfusion hw
      · rw [hf] at hw
        exact CallPhase.noConfusion hw

/-- C4, witness: a two-caller burst with a succeeding backend under the
interleaved schedule used in the counterexample. -/
theorem connect_dedup_witness :
    ((fun _ => true) : Nat → Bool) 1 = true
    ∧ (runConn (fun _ => true) [0, 1, 0, 1] initConn).attempts ≤ 1
    ∧ (∀ i, (runConn (fun _ => true) [0, 1, 0, 1] initConn).callers i
        ≠ CallPhase.failed) :=
  ⟨rfl,
   (connect_concurrent_dedup_on_success (fun _ => true) rfl [0, 1, 0, 1]).1,
   (connect_concurrent_dedup_on_success (fun _ => true) rfl [0, 1, 0, 1]).2.2⟩

end Mongo
